import Mathlib

/-!
Verification of the kukai-dex-calculations CPMM calculator.

Shallow embedding of the `DexCalculations` class (src/unnamed/part_001,
mirrored by src/index-raw.js) over exact rationals.

Modelling conventions:
* A `BigNumber` value is modelled as a rational number `ℚ`.  A numeric-like
  argument (`BigNumber | number | string`) is modelled as `Option ℚ`, where
  `none` stands for a value that fails to coerce to a number (bignumber.js
  turns such inputs into `NaN`, which fails every comparison guard below,
  exactly like `none` does here).
* A public function's `BigNumber | null` result is modelled as `Option ℚ`
  with `none` standing for `null`.  The two `...ForDisplay` functions can
  also return a `NaN` BigNumber (their `decimals` argument is used without
  validation), so they return `Option (Option ℚ)`: `none` = `null`,
  `some none` = a `NaN` result, `some (some q)` = the finite value `q`.
* `feePercent`, `burnPercent` and `allowedSlippage` are `number`-typed in the
  source and are modelled as plain `ℚ` (with `Int.floor` for `Math.floor`).
* `Math.pow (10, d)` on a non-negative decimals count is modelled as
  `(10 : ℚ) ^ ⌊d⌋.toNat`; the library documents `decimals` as a non-negative
  integer, on which the two coincide exactly.
* `dividedBy` is exact rational division.  A zero divisor (which bignumber.js
  maps to `Infinity`) is never reached by any theorem below: every statement
  either forces the divisor to be nonzero or avoids the boundary.
-/

namespace KukaiDex

/-- Source `gtZero`: `x.isGreaterThan(0)`.  `none` models `NaN`,
for which every BigNumber comparison is false. -/
def gtZero : Option ℚ → Bool
  | none => false
  | some x => decide (0 < x)

/-- Source `geqZero`: `x.isGreaterThanOrEqualTo(0)`. -/
def geqZero : Option ℚ → Bool
  | none => false
  | some x => decide (0 ≤ x)

/-- Source `eqZero`: `x.isZero()`. -/
def eqZero : Option ℚ → Bool
  | none => false
  | some x => decide (x = 0)

/-- Source `leqZero`: `x.isLessThanOrEqualTo(0)`. -/
def leqZero : Option ℚ → Bool
  | none => false
  | some x => decide (x ≤ 0)

/-- Truncation toward zero, the rounding used by BigNumber's `mod`
(`MODULO_MODE` 1, the default).  On the non-negative domain it coincides
with `Int.floor`. -/
def qtrunc (q : ℚ) : ℤ := if 0 ≤ q then ⌊q⌋ else ⌈q⌉

/-- Source BigNumber `x.mod(y)`: `x - y * trunc (x / y)`. -/
def bnMod (x y : ℚ) : ℚ := x - y * (qtrunc (x / y) : ℚ)

/-- Source `ceilingDiv`, verbatim: the branch tests
`x.mod(y).isGreaterThanOrEqualTo(0)` and the division is exact decimal
division (`dividedBy`), not integer division. -/
def ceilingDiv (x y : ℚ) : ℚ :=
  if 0 ≤ bnMod x y then x / y + 1 else x / y

/-- Source `creditSubsidy`: `xtzPool.plus(2_500_000)`;
`NaN` (`none`) propagates. -/
def creditSubsidy (xtzPool : Option ℚ) : Option ℚ :=
  xtzPool.map (· + 2500000)

/-- The credited XTZ pool used by the subsidy-aware functions:
`if (this.isLbContract) { xtzPool_ = this.creditSubsidy(xtzPool_); }`. -/
def effectivePool (isLb : Bool) (xtzPool : Option ℚ) : Option ℚ :=
  if isLb then creditSubsidy xtzPool else xtzPool

/-- Source `1000 - Math.floor(percent * 10)`, the fixed-point fee/burn multiplier. -/
def feeFromPercent (p : ℚ) : ℚ := 1000 - (⌊p * 10⌋ : ℚ)

/-- The multiplier as computed through the JS truthiness ternary
`feePercent ? 1000 - Math.floor(feePercent * 10) : 1000` used in
`xtzToTokenTokenOutput`. -/
def feeFromPercentOpt (p : ℚ) : ℚ :=
  if p = 0 then 1000 else feeFromPercent p

/-- Source `Math.pow(10, decimals.toNumber())` for a non-negative integer decimals
count (the library's documented domain for `decimals`). -/
def pow10 (d : ℚ) : ℚ := (10 : ℚ) ^ ⌊d⌋.toNat

/-- Source `Math.pow(10, -decimals)` for a non-negative integer decimals count. -/
def pow10neg (d : ℚ) : ℚ := (10 : ℚ) ^ (-⌊d⌋)

/-- The value behind a coerced argument; only read under a guard that
forces the argument to be `some`. -/
def val (x : Option ℚ) : ℚ := x.getD 0

/-!  ## xtzToToken entrypoint functions  -/

/-- Source `xtzToTokenTokenOutput`.  The subsidy is credited to the `xtzPool`
parameter before coercion; fee and burn go through the truthiness ternary. -/
def xtzToTokenTokenOutput (isLb : Bool) (xtzIn xtzPool tokenPool : Option ℚ)
    (feePercent burnPercent : ℚ) : Option ℚ :=
  let xtzPool' := effectivePool isLb xtzPool
  let fee := feeFromPercentOpt feePercent
  let burn := feeFromPercentOpt burnPercent
  let feeMultiplier := fee * burn
  if gtZero xtzIn && gtZero xtzPool' && gtZero tokenPool then
    some ((val xtzIn * val tokenPool * feeMultiplier) /
      (val xtzPool' * 1000000 + val xtzIn * feeMultiplier))
  else none

/-- Source `xtzToTokenXtzInput`.  Solves the forward formula for the XTZ input,
scaling numerator and denominator by `10 ^ decimals`; returns `null` unless
the computed result is strictly positive. -/
def xtzToTokenXtzInput (isLb : Bool) (tokenOut xtzPool tokenPool decimals : Option ℚ)
    (feePercent burnPercent : ℚ) : Option ℚ :=
  let xtzPool' := effectivePool isLb xtzPool
  let fee := feeFromPercent feePercent
  let burn := feeFromPercent burnPercent
  let feeMultiplier := fee * burn
  if gtZero tokenOut && gtZero xtzPool' && gtZero tokenPool && geqZero decimals then
    let result := (val xtzPool' * val tokenOut * 1000000 * pow10 (val decimals)) /
      ((val tokenPool - val tokenOut) * (feeMultiplier * pow10 (val decimals)))
    if 0 < result then some result else none
  else none

/-- Source `xtzToTokenExchangeRate`: forward quote divided by the input. -/
def xtzToTokenExchangeRate (isLb : Bool) (xtzIn xtzPool tokenPool : Option ℚ)
    (feePercent burnPercent : ℚ) : Option ℚ :=
  if gtZero xtzIn && gtZero xtzPool && gtZero tokenPool then
    match xtzToTokenTokenOutput isLb xtzIn xtzPool tokenPool feePercent burnPercent with
    | none => none
    | some tokenOutput => some (tokenOutput / val xtzIn)
  else none

/-- Source `xtzToTokenExchangeRateForDisplay`.  The `decimals` argument is used in
`Math.pow(10, -decimals)` without any validation: a non-coercing `decimals`
(`none`) makes the whole product `NaN`, which the source returns as a
BigNumber `NaN`, not as `null` (modelled as `some none`). -/
def xtzToTokenExchangeRateForDisplay (isLb : Bool)
    (xtzIn xtzPool tokenPool decimals : Option ℚ)
    (feePercent burnPercent : ℚ) : Option (Option ℚ) :=
  if gtZero xtzIn && gtZero xtzPool && gtZero tokenPool then
    match xtzToTokenTokenOutput isLb xtzIn xtzPool tokenPool feePercent burnPercent with
    | none => none
    | some tokenOutput =>
      match decimals with
      | none => some none
      | some d => some (some (tokenOutput * pow10neg d / (val xtzIn * (10 : ℚ) ^ (-(6 : ℤ)))))
  else none

/-- Source `xtzToTokenMarketRate`: pure reserve ratio with decimal scaling. -/
def xtzToTokenMarketRate (xtzPool tokenPool decimals : Option ℚ) : Option ℚ :=
  if gtZero xtzPool && gtZero tokenPool && geqZero decimals then
    let xtzPool' := val xtzPool * (10 : ℚ) ^ (-(6 : ℤ))
    let tokenPool' := val tokenPool * pow10neg (val decimals)
    some (tokenPool' / xtzPool')
  else none

/-- Source `xtzToTokenPriceImpact`.  Transcribed verbatim: `midPrice` is
`tokenPool_.times(xtzPool_)` (a product), and the net-burn trade proceeds
are compared against `midPrice * xtzIn`. -/
def xtzToTokenPriceImpact (isLb : Bool) (xtzIn xtzPool tokenPool : Option ℚ)
    (burnPercent : ℚ) : Option ℚ :=
  let xtzPool' := effectivePool isLb xtzPool
  let burn := feeFromPercent burnPercent
  if gtZero xtzIn && gtZero xtzPool' && gtZero tokenPool then
    let midPrice := val tokenPool * val xtzPool'
    let xtzInNetBurn := val xtzIn * burn / 1000
    let tokensBought := xtzInNetBurn * val tokenPool / (xtzInNetBurn + val xtzPool')
    if tokensBought ≤ 0 then some 0
    else
      let exactQuote := midPrice * val xtzIn
      some ((exactQuote - tokensBought) / exactQuote)
  else none

/-- Source `xtzToTokenMinimumTokenOutput`.  The guard is a raw JS comparison
`tokenOut > 0` (false for `NaN`), and the result is clamped below by `1`. -/
def xtzToTokenMinimumTokenOutput (tokenOut : Option ℚ) (allowedSlippage : ℚ) : Option ℚ :=
  if gtZero tokenOut && decide (0 ≤ allowedSlippage) && decide (allowedSlippage ≤ 1) then
    let tokenOut' := val tokenOut * 1000
    let allowedSlippage' := (⌊allowedSlippage * 1000 * 100⌋ : ℚ)
    let result := (tokenOut' - tokenOut' * allowedSlippage' / 100000) / 1000
    some (max result 1)
  else none

/-- Source `totalLiquidityProviderFee`: `xtzIn * 1 / 1000`. -/
def totalLiquidityProviderFee (xtzIn : Option ℚ) : Option ℚ :=
  if gtZero xtzIn then some (val xtzIn * 1 / 1000) else none

/-- Source `liquidityProviderFee`: the total fee pro-rated by the caller's
liquidity share. -/
def liquidityProviderFee (xtzIn totalLiquidity userLiquidity : Option ℚ) : Option ℚ :=
  if gtZero xtzIn && gtZero totalLiquidity && gtZero userLiquidity then
    match totalLiquidityProviderFee xtzIn with
    | none => none
    | some fee => some (fee / (val totalLiquidity / val userLiquidity))
  else none

/-!  ## tokenToXtz entrypoint functions  -/

/-- Source `tokenToXtzXtzOutput`.  Transcribed verbatim: although the guard tests
the credited pool `xtzPool_`, the numerator is built from
`new BigNumber(xtzPool)` — the raw argument, without the subsidy. -/
def tokenToXtzXtzOutput (isLb : Bool) (tokenIn xtzPool tokenPool : Option ℚ)
    (feePercent burnPercent : ℚ) : Option ℚ :=
  let xtzPool' := effectivePool isLb xtzPool
  let fee := feeFromPercent feePercent
  let burn := feeFromPercent burnPercent
  let feeAndBurnMultiplier := fee * burn
  let feeMultiplier := fee * 1000
  if gtZero tokenIn && gtZero xtzPool' && gtZero tokenPool then
    some ((val tokenIn * val xtzPool * feeAndBurnMultiplier) /
      (val tokenPool * 1000000 + val tokenIn * feeMultiplier))
  else none

/-- Source `tokenToXtzTokenInput`.  The denominator applies `fee * 1000` to the
credited pool and `fee * burn` to the target output; returns `null` unless
the computed result is strictly positive. -/
def tokenToXtzTokenInput (isLb : Bool) (xtzOut xtzPool tokenPool decimals : Option ℚ)
    (feePercent burnPercent : ℚ) : Option ℚ :=
  let xtzPool' := effectivePool isLb xtzPool
  let fee := feeFromPercent feePercent
  let burn := feeFromPercent burnPercent
  let feeAndBurnMultiplier := fee * burn
  let feeMultiplier := fee * 1000
  if gtZero xtzOut && gtZero xtzPool' && gtZero tokenPool && geqZero decimals then
    let result := (val tokenPool * val xtzOut * 1000000 * pow10 (val decimals)) /
      ((val xtzPool' * feeMultiplier - val xtzOut * feeAndBurnMultiplier) *
        pow10 (val decimals))
    if 0 < result then some result else none
  else none

/-- Source `tokenToXtzExchangeRate`: forward quote divided by the input. -/
def tokenToXtzExchangeRate (isLb : Bool) (tokenIn xtzPool tokenPool : Option ℚ)
    (feePercent burnPercent : ℚ) : Option ℚ :=
  if gtZero tokenIn && gtZero xtzPool && gtZero tokenPool then
    match tokenToXtzXtzOutput isLb tokenIn xtzPool tokenPool feePercent burnPercent with
    | none => none
    | some tokenOutput => some (tokenOutput / val tokenIn)
  else none

/-- Source `tokenToXtzExchangeRateForDisplay`.  Like the xtz→token display rate,
the `decimals` argument is used without validation (`decimals.toNumber()`
inside `Math.pow`): a `NaN` decimals makes the result `NaN`, not `null`. -/
def tokenToXtzExchangeRateForDisplay (isLb : Bool)
    (tokenIn xtzPool tokenPool decimals : Option ℚ)
    (feePercent burnPercent : ℚ) : Option (Option ℚ) :=
  if gtZero tokenIn && gtZero xtzPool && gtZero tokenPool then
    match tokenToXtzXtzOutput isLb tokenIn xtzPool tokenPool feePercent burnPercent with
    | none => none
    | some tokenOutput =>
      match decimals with
      | none => some none
      | some d => some (some (tokenOutput * (10 : ℚ) ^ (-(6 : ℤ)) / (val tokenIn * pow10neg d)))
  else none

/-- Source `tokenToXtzMarketRate`: pure reserve ratio with decimal scaling. -/
def tokenToXtzMarketRate (xtzPool tokenPool decimals : Option ℚ) : Option ℚ :=
  if gtZero xtzPool && gtZero tokenPool && geqZero decimals then
    let xtzPool' := val xtzPool * (10 : ℚ) ^ (-(6 : ℤ))
    let tokenPool' := val tokenPool * pow10neg (val decimals)
    some (xtzPool' / tokenPool')
  else none

/-- Source `tokenToXtzPriceImpact`.  Here `midPrice` is the ratio
`xtzPool_.dividedBy(tokenPool_)` and the proceeds are netted of the burn. -/
def tokenToXtzPriceImpact (isLb : Bool) (tokenIn xtzPool tokenPool : Option ℚ)
    (burnPercent : ℚ) : Option ℚ :=
  let xtzPool' := effectivePool isLb xtzPool
  let burn := feeFromPercent burnPercent
  if gtZero tokenIn && gtZero xtzPool' && gtZero tokenPool then
    let midPrice := val xtzPool' / val tokenPool
    let xtzBought := val tokenIn * val xtzPool' / (val tokenIn + val tokenPool)
    let xtzBoughtNetBurn := xtzBought * burn / 1000
    if xtzBoughtNetBurn ≤ 0 then some 0
    else
      let exactQuote := midPrice * val tokenIn
      some ((exactQuote - xtzBoughtNetBurn) / exactQuote)
  else none

/-- Source `tokenToXtzMinimumXtzOutput`: slippage-bounded minimum, clamped below
by `1`. -/
def tokenToXtzMinimumXtzOutput (xtzOut : Option ℚ) (allowedSlippage : ℚ) : Option ℚ :=
  if gtZero xtzOut && decide (0 ≤ allowedSlippage) && decide (allowedSlippage ≤ 1) then
    let xtzOut' := val xtzOut * 1000
    let allowedSlippage' := (⌊allowedSlippage * 1000 * 100⌋ : ℚ)
    let result := (xtzOut' - xtzOut' * allowedSlippage' / 100000) / 1000
    some (max result 1)
  else none

/-!  ## addLiquidity entrypoint functions  -/

/-- Source `addLiquidityLiquidityCreated`.  Transcribed verbatim: the guard tests
the credited pool, but both branches divide by `new BigNumber(xtzPool)` —
the raw argument — and the zero- and positive-`totalLiquidity` branches
compute the same expression. -/
def addLiquidityLiquidityCreated (isLb : Bool) (xtzIn xtzPool totalLiquidity : Option ℚ) :
    Option ℚ :=
  let xtzPool' := effectivePool isLb xtzPool
  if gtZero xtzIn && gtZero xtzPool' then
    if eqZero totalLiquidity then
      some (val xtzIn * val totalLiquidity / val xtzPool)
    else if gtZero totalLiquidity then
      some (val xtzIn * val totalLiquidity / val xtzPool)
    else none
  else none

/-- Source `addLiquidityTokenIn`: `ceilingDiv (xtzIn * tokenPool) xtzPool_`, on the
credited pool. -/
def addLiquidityTokenIn (isLb : Bool) (xtzIn xtzPool tokenPool : Option ℚ) : Option ℚ :=
  let xtzPool' := effectivePool isLb xtzPool
  if gtZero xtzIn && gtZero xtzPool' && gtZero tokenPool then
    some (ceilingDiv (val xtzIn * val tokenPool) (val xtzPool'))
  else none

/-- Source `addLiquidityXtzIn`: plain truncating-free division
`tokenIn * xtzPool_ / tokenPool`, on the credited pool. -/
def addLiquidityXtzIn (isLb : Bool) (tokenIn xtzPool tokenPool : Option ℚ) : Option ℚ :=
  let xtzPool' := effectivePool isLb xtzPool
  if gtZero tokenIn && gtZero xtzPool' && gtZero tokenPool then
    some (val tokenIn * val xtzPool' / val tokenPool)
  else none

/-!  ## removeLiquidity entrypoint functions  -/

/-- Source `removeLiquidityTokenOut`: `tokenPool * liquidityBurned / totalLiquidity`. -/
def removeLiquidityTokenOut (liquidityBurned totalLiquidity tokenPool : Option ℚ) :
    Option ℚ :=
  if gtZero liquidityBurned && gtZero totalLiquidity && gtZero tokenPool then
    some (val tokenPool * val liquidityBurned / val totalLiquidity)
  else none

/-- Source `removeLiquidityXtzOut`: `xtzPool_ * liquidityBurned / totalLiquidity`,
on the credited pool. -/
def removeLiquidityXtzOut (isLb : Bool) (liquidityBurned totalLiquidity xtzPool : Option ℚ) :
    Option ℚ :=
  let xtzPool' := effectivePool isLb xtzPool
  if gtZero liquidityBurned && gtZero totalLiquidity && gtZero xtzPool' then
    some (val xtzPool' * val liquidityBurned / val totalLiquidity)
  else none

/-!  ## Shared lemmas  -/

theorem feeFromPercentOpt_eq (p : ℚ) : feeFromPercentOpt p = feeFromPercent p := by
  unfold feeFromPercentOpt feeFromPercent
  split
  · rename_i h
    subst h
    norm_num
  · rfl

theorem pow10_pos (d : ℚ) : 0 < pow10 d := by
  unfold pow10
  positivity

theorem pow10_ne_zero (d : ℚ) : pow10 d ≠ 0 := (pow10_pos d).ne'

theorem feeFromPercent_nonneg {p : ℚ} (h : p ≤ 100) : 0 ≤ feeFromPercent p := by
  unfold feeFromPercent
  have : (⌊p * 10⌋ : ℚ) ≤ p * 10 := Int.floor_le _
  linarith

theorem feeFromPercent_le_1000 {p : ℚ} (h : 0 ≤ p) : feeFromPercent p ≤ 1000 := by
  unfold feeFromPercent
  have : (0 : ℤ) ≤ ⌊p * 10⌋ := Int.le_floor.mpr (by push_cast; linarith)
  have : (0 : ℚ) ≤ (⌊p * 10⌋ : ℚ) := by exact_mod_cast this
  linarith

/-!  ## Claim theorems  -/

/-- Claim C1:  The claim states that `ceilingDiv x y` is `⌈x / y⌉` for
non-negative `x` and positive `y`, agreeing with `x / y` when `y` divides
`x`.  On the code this fails: the branch condition `x.mod(y) >= 0` is always
true on that domain (the doc comment of the function says `> 0`), and the
division is exact, so the function returns `x / y + 1`.  At `x = 4, y = 2`
it returns `3` instead of `⌈4 / 2⌉ = 2`; at `x = 3, y = 2` it returns the
non-integer `5 / 2` instead of `⌈3 / 2⌉ = 2`. -/
theorem ceilingDiv_always_increments :
    ceilingDiv 4 2 = 3 ∧ ceilingDiv 3 2 = 5 / 2 ∧
      ((4 : ℚ) / 2 = 2 ∧ ⌈(3 : ℚ) / 2⌉ = 2) := by
  refine ⟨?_, ?_, by norm_num, ?_⟩
  · norm_num [ceilingDiv, bnMod, qtrunc]
  · norm_num [ceilingDiv, bnMod, qtrunc]
  · rw [Int.ceil_eq_iff]
    norm_num

/-- Claim C2:  The claim states that every subsidy-aware function satisfies
`f(..., xtzPool, subsidy := true) = f(..., xtzPool + 2500000, subsidy := false)`.
Two of the functions the claim cites violate it: `tokenToXtzXtzOutput`
builds its numerator from the raw `xtzPool` argument instead of the credited
`xtzPool_`, and `addLiquidityLiquidityCreated` divides by the raw `xtzPool`;
in both, only the positivity guard sees the credit.  At
`xtzPool = 1000000` the subsidized runs return `500000` and `1000000`,
while the unsubsidized runs on the pre-credited pool `3500000` return
`1750000` and `2000000 / 7`. -/
theorem subsidy_credit_skipped :
    tokenToXtzXtzOutput true (some 1000) (some 1000000) (some 1000) 0 0 = some 500000 ∧
    tokenToXtzXtzOutput false (some 1000) (some 3500000) (some 1000) 0 0 = some 1750000 ∧
    addLiquidityLiquidityCreated true (some 1000000) (some 1000000) (some 1000000) =
      some 1000000 ∧
    addLiquidityLiquidityCreated false (some 1000000) (some 3500000) (some 1000000) =
      some (2000000 / 7) := by
  refine ⟨?_, ?_, ?_, ?_⟩
  · norm_num [tokenToXtzXtzOutput, effectivePool, creditSubsidy, feeFromPercent, gtZero, val]
  · norm_num [tokenToXtzXtzOutput, effectivePool, feeFromPercent, gtZero, val]
  · norm_num [addLiquidityLiquidityCreated, effectivePool, creditSubsidy, eqZero, gtZero, val]
  · norm_num [addLiquidityLiquidityCreated, effectivePool, eqZero, gtZero, val]

/-- Claim C5:  The claim (and the repository's active test file) expects, with
fee and burn percentages both `0`, floored outputs `0`, `1` and `248` at the
three dust-trade inputs.  Evaluating the code: the first input indeed floors
to `0`, but the second yields `25 / 3` (floor `8`, not `1`) and the third
`250000 / 1001` (floor `249`, not `248`).  The expected values `1` and `248`
match the liquidity-baking variant (0.1% fee, 0.1% burn, subsidy credited),
not the parameters the test passes. -/
theorem dust_trade_values :
    (xtzToTokenTokenOutput false (some 5) (some 100000) (some 10) 0 0 = some (10 / 20001) ∧
      ⌊(10 / 20001 : ℚ)⌋ = 0) ∧
    (xtzToTokenTokenOutput false (some 500000) (some 100000) (some 10) 0 0 = some (25 / 3) ∧
      ⌊(25 / 3 : ℚ)⌋ = 8) ∧
    (xtzToTokenTokenOutput false (some 1000000) (some 1000000000) (some 250000) 0 0 =
      some (250000 / 1001) ∧ ⌊(250000 / 1001 : ℚ)⌋ = 249) := by
  refine ⟨⟨?_, ?_⟩, ⟨?_, ?_⟩, ⟨?_, ?_⟩⟩
  · norm_num [xtzToTokenTokenOutput, effectivePool, feeFromPercentOpt, gtZero, val]
  · norm_num [Int.floor_eq_iff]
  · norm_num [xtzToTokenTokenOutput, effectivePool, feeFromPercentOpt, gtZero, val]
  · norm_num [Int.floor_eq_iff]
  · norm_num [xtzToTokenTokenOutput, effectivePool, feeFromPercentOpt, gtZero, val]
  · norm_num [Int.floor_eq_iff]

/-- Claim C4:  For positive input and pools, with the subsidy off, the
xtz→token forward quote is exactly
`xtzIn * tokenPool * m / (xtzPool * 1000000 + xtzIn * m)` with
`m = (1000 - ⌊fee% * 10⌋) * (1000 - ⌊burn% * 10⌋)` applied symmetrically,
and the token→xtz forward quote is exactly
`tokenIn * xtzPool * fee * burn / (tokenPool * 1000000 + tokenIn * fee * 1000)`,
with `fee * burn` on the numerator and only `fee * 1000` on the input-scaling
term of the denominator; both are exact divisions with no rounding. -/
theorem forward_quote_formulas (i X T tIn fp bp : ℚ)
    (hi : 0 < i) (hX : 0 < X) (hT : 0 < T) (ht : 0 < tIn) :
    xtzToTokenTokenOutput false (some i) (some X) (some T) fp bp =
      some ((i * T * ((1000 - (⌊fp * 10⌋ : ℚ)) * (1000 - (⌊bp * 10⌋ : ℚ)))) /
        (X * 1000000 + i * ((1000 - (⌊fp * 10⌋ : ℚ)) * (1000 - (⌊bp * 10⌋ : ℚ))))) ∧
    tokenToXtzXtzOutput false (some tIn) (some X) (some T) fp bp =
      some ((tIn * X * ((1000 - (⌊fp * 10⌋ : ℚ)) * (1000 - (⌊bp * 10⌋ : ℚ)))) /
        (T * 1000000 + tIn * ((1000 - (⌊fp * 10⌋ : ℚ)) * 1000))) := by
  constructor
  · simp [xtzToTokenTokenOutput, effectivePool, feeFromPercentOpt_eq, feeFromPercent,
      gtZero, val, hi, hX, hT]
  · simp [tokenToXtzXtzOutput, effectivePool, feeFromPercent, gtZero, val, ht, hX, hT]

/-- Witness for claim C4 at `xtzIn = 2, xtzPool = 3, tokenPool = 5`, zero fee
and burn. -/
theorem forward_quote_formulas_witness :
    xtzToTokenTokenOutput false (some 2) (some 3) (some 5) 0 0 =
      some ((2 * 5 * ((1000 - (⌊(0 : ℚ) * 10⌋ : ℚ)) * (1000 - (⌊(0 : ℚ) * 10⌋ : ℚ)))) /
        (3 * 1000000 + 2 * ((1000 - (⌊(0 : ℚ) * 10⌋ : ℚ)) * (1000 - (⌊(0 : ℚ) * 10⌋ : ℚ))))) :=
  (forward_quote_formulas 2 3 5 7 0 0 (by norm_num) (by norm_num) (by norm_num)
    (by norm_num)).1

/-- Claim C8:  For positive `xtzIn` and `xtzPool` and non-negative
`totalLiquidity`, both branches of `addLiquidityLiquidityCreated` compute
`xtzIn * totalLiquidity / xtzPool`; in particular the zero-`totalLiquidity`
bootstrap branch always mints exactly `0`. -/
theorem liquidity_created_formula (i X L : ℚ) (hi : 0 < i) (hX : 0 < X) (hL : 0 ≤ L) :
    addLiquidityLiquidityCreated false (some i) (some X) (some L) = some (i * L / X) ∧
      (L = 0 → addLiquidityLiquidityCreated false (some i) (some X) (some L) = some 0) := by
  have main : addLiquidityLiquidityCreated false (some i) (some X) (some L) =
      some (i * L / X) := by
    rcases hL.eq_or_lt with h | h
    · simp [addLiquidityLiquidityCreated, effectivePool, eqZero, gtZero, val, hi, hX, ← h]
    · simp [addLiquidityLiquidityCreated, effectivePool, eqZero, gtZero, val, hi, hX,
        h, h.ne']
  refine ⟨main, fun h => ?_⟩
  rw [main, h]
  norm_num

/-- Witness for claim C8 at `xtzIn = 7, xtzPool = 2, totalLiquidity = 0`. -/
theorem liquidity_created_formula_witness :
    addLiquidityLiquidityCreated false (some 7) (some 2) (some 0) = some 0 :=
  (liquidity_created_formula 7 2 0 (by norm_num) (by norm_num) (by norm_num)).2 rfl

/-- Claim C10:  The `decimals` argument of the two inverse-quote functions has
no effect on the result: the `10 ^ decimals` factor multiplies both
numerator and denominator and cancels exactly, so any two non-negative
decimals values give identical results (for every pool state and flag). -/
theorem inverse_quotes_ignore_decimals (lb : Bool) (o X T : Option ℚ) (fp bp d1 d2 : ℚ)
    (h1 : 0 ≤ d1) (h2 : 0 ≤ d2) :
    xtzToTokenXtzInput lb o X T (some d1) fp bp =
      xtzToTokenXtzInput lb o X T (some d2) fp bp ∧
    tokenToXtzTokenInput lb o X T (some d1) fp bp =
      tokenToXtzTokenInput lb o X T (some d2) fp bp := by
  have cancel : ∀ (n m d : ℚ), n * pow10 d / (m * pow10 d) = n / m := by
    intro n m d
    rw [mul_comm m (pow10 d), ← div_div, mul_div_assoc,
      div_self (pow10_ne_zero d), mul_one]
  have cancel' : ∀ (n a b d : ℚ), n * pow10 d / (a * (b * pow10 d)) = n / (a * b) := by
    intro n a b d
    rw [← mul_assoc]
    exact cancel n (a * b) d
  have hg1 : geqZero (some d1) = true := by simp [geqZero, h1]
  have hg2 : geqZero (some d2) = true := by simp [geqZero, h2]
  constructor
  · simp only [xtzToTokenXtzInput, hg1, hg2, val, Option.getD_some, cancel']
  · simp only [tokenToXtzTokenInput, hg1, hg2, val, Option.getD_some, cancel]

/-- Witness for claim C10 at `decimals = 3` versus `decimals = 8`. -/
theorem inverse_quotes_ignore_decimals_witness :
    xtzToTokenXtzInput false (some 1) (some 100) (some 10) (some 3) 0 0 =
      xtzToTokenXtzInput false (some 1) (some 100) (some 10) (some 8) 0 0 :=
  (inverse_quotes_ignore_decimals false (some 1) (some 100) (some 10) 0 0 3 8
    (by norm_num) (by norm_num)).1

/-- Claim C6, counterexample:  The claim states that the inverse quotes return
`null` for every requested output greater than or equal to the counter pool.
`tokenToXtzTokenInput` violates it: with a large burn (99.9%) the
denominator `xtzPool * fee * 1000 - xtzOut * fee * burn` remains positive
even for `xtzOut` twice the pool, so requesting `200` XTZ from a pool of
`100` returns the value `10000 / 499`, not `null`. -/
theorem tokenInput_nonnull_above_pool :
    tokenToXtzTokenInput false (some 200) (some 100) (some 10) (some 0) 0 (999 / 10) =
      some (10000 / 499) ∧ (100 : ℚ) ≤ 200 := by
  constructor
  · norm_num [tokenToXtzTokenInput, effectivePool, feeFromPercent, gtZero, geqZero, val, pow10]
  · norm_num

/-- Claim C6, amended:  The inverse quotes never return a non-positive value
(`null` replaces any such result); `xtzToTokenXtzInput` returns `null`
whenever the target output strictly exceeds the token pool (with a positive
fee multiplier), and `tokenToXtzTokenInput` returns `null` whenever
`xtzOut * burn` exceeds `xtzPool * 1000` — which for burn factors below
`1000` is a strictly weaker condition than `xtzOut ≥ xtzPool`. -/
theorem inverse_quote_null_conditions :
    (∀ (o X T d : Option ℚ) (fp bp : ℚ) (r : ℚ),
      xtzToTokenXtzInput false o X T d fp bp = some r → 0 < r) ∧
    (∀ (o X T d : Option ℚ) (fp bp : ℚ) (r : ℚ),
      tokenToXtzTokenInput false o X T d fp bp = some r → 0 < r) ∧
    (∀ (o X T d fp bp : ℚ), 0 < X → 0 < T → 0 ≤ d →
      0 < feeFromPercent fp → 0 < feeFromPercent bp → T < o →
      xtzToTokenXtzInput false (some o) (some X) (some T) (some d) fp bp = none) ∧
    (∀ (o X T d fp bp : ℚ), 0 < X → 0 < T → 0 ≤ d →
      0 < feeFromPercent fp → X * 1000 < o * feeFromPercent bp →
      tokenToXtzTokenInput false (some o) (some X) (some T) (some d) fp bp = none) := by
  refine ⟨?_, ?_, ?_, ?_⟩
  · intro o X T d fp bp r h
    simp only [xtzToTokenXtzInput] at h
    split at h
    · split at h
      · rename_i hpos
        exact (Option.some.inj h) ▸ hpos
      · exact absurd h (by simp)
    · exact absurd h (by simp)
  · intro o X T d fp bp r h
    simp only [tokenToXtzTokenInput] at h
    split at h
    · split at h
      · rename_i hpos
        exact (Option.some.inj h) ▸ hpos
      · exact absurd h (by simp)
    · exact absurd h (by simp)
  · intro o X T d fp bp hX hT hd hf hb hTo
    have ho : 0 < o := hT.trans hTo
    have hp := pow10_pos d
    have hnum : 0 < X * o * 1000000 * pow10 d :=
      mul_pos (mul_pos (mul_pos hX ho) (by norm_num)) hp
    have hden : (T - o) * (feeFromPercent fp * feeFromPercent bp * pow10 d) < 0 :=
      mul_neg_of_neg_of_pos (by linarith) (mul_pos (mul_pos hf hb) hp)
    have hlt : X * o * 1000000 * pow10 d /
        ((T - o) * (feeFromPercent fp * feeFromPercent bp * pow10 d)) < 0 :=
      div_neg_of_pos_of_neg hnum hden
    simp [xtzToTokenXtzInput, effectivePool, gtZero, geqZero, val, ho, hX, hT, hd,
      not_lt.mpr hlt.le]
  · intro o X T d fp bp hX hT hd hf hXo
    by_cases ho : 0 < o
    · have hp := pow10_pos d
      have hkey : X * (feeFromPercent fp * 1000) -
          o * (feeFromPercent fp * feeFromPercent bp) < 0 := by
        have hrw : X * (feeFromPercent fp * 1000) -
            o * (feeFromPercent fp * feeFromPercent bp) =
            feeFromPercent fp * (X * 1000 - o * feeFromPercent bp) := by ring
        rw [hrw]
        exact mul_neg_of_pos_of_neg hf (by linarith)
      have hden : (X * (feeFromPercent fp * 1000) -
          o * (feeFromPercent fp * feeFromPercent bp)) * pow10 d < 0 :=
        mul_neg_of_neg_of_pos hkey hp
      have hnum : 0 < T * o * 1000000 * pow10 d :=
        mul_pos (mul_pos (mul_pos hT ho) (by norm_num)) hp
      have hlt : T * o * 1000000 * pow10 d /
          ((X * (feeFromPercent fp * 1000) -
            o * (feeFromPercent fp * feeFromPercent bp)) * pow10 d) < 0 :=
        div_neg_of_pos_of_neg hnum hden
      simp [tokenToXtzTokenInput, effectivePool, gtZero, geqZero, val, ho, hX, hT, hd,
        not_lt.mpr hlt.le]
    · simp [tokenToXtzTokenInput, effectivePool, gtZero, ho]

/-- Witness for claim C6 (amended): requesting `20` tokens from a token pool
of `10` fails with the `null` sentinel. -/
theorem inverse_quote_null_conditions_witness :
    xtzToTokenXtzInput false (some 20) (some 100) (some 10) (some 0) 0 0 = none :=
  inverse_quote_null_conditions.2.2.1 20 100 10 0 0 0 (by norm_num) (by norm_num)
    (by norm_num) (by norm_num [feeFromPercent]) (by norm_num [feeFromPercent])
    (by norm_num)

/-- Claim C3, counterexample:  The claim states that the inverse quote applied
to a forward quote's output never returns less than the original input.
For the token→xtz pair with a positive burn this fails:
`tokenToXtzXtzOutput(100, 1000000, 1000, fee 0%, burn 10%) = 900000 / 11`,
and feeding that output to `tokenToXtzTokenInput` returns `90000 / 1019`,
which is strictly less than the original `100` tokens. -/
theorem tokenToXtz_roundtrip_shortfall :
    tokenToXtzXtzOutput false (some 100) (some 1000000) (some 1000) 0 10 =
      some (900000 / 11) ∧
    tokenToXtzTokenInput false (some (900000 / 11)) (some 1000000) (some 1000) (some 0)
      0 10 = some (90000 / 1019) ∧
    (90000 / 1019 : ℚ) < 100 := by
  refine ⟨?_, ?_, by norm_num⟩
  · norm_num [tokenToXtzXtzOutput, effectivePool, feeFromPercent, gtZero, val]
  · norm_num [tokenToXtzTokenInput, effectivePool, feeFromPercent, gtZero, geqZero, val,
      pow10]

/-- Claim C3, amended:  With identical fee/burn parameters and positive
multipliers, the xtz→token round trip is exact: the inverse quote on the
forward quote's output returns exactly the original input (hence never
less).  The token→xtz round trip is exact as well, but only when the burn
multiplier is `1000` (burn percentage below 0.1%); with a positive burn the
token→xtz inverse can return strictly less than the original input. -/
theorem roundtrip_bound_amended (i tIn X T d fp bp : ℚ) (hi : 0 < i) (ht : 0 < tIn)
    (hX : 0 < X) (hT : 0 < T) (hd : 0 ≤ d) (hf : 0 < feeFromPercent fp)
    (hb : 0 < feeFromPercent bp) :
    (∀ o, xtzToTokenTokenOutput false (some i) (some X) (some T) fp bp = some o →
      xtzToTokenXtzInput false (some o) (some X) (some T) (some d) fp bp = some i) ∧
    (feeFromPercent bp = 1000 →
      ∀ o, tokenToXtzXtzOutput false (some tIn) (some X) (some T) fp bp = some o →
      tokenToXtzTokenInput false (some o) (some X) (some T) (some d) fp bp = some tIn) := by
  constructor
  · intro o h
    simp [xtzToTokenTokenOutput, effectivePool, feeFromPercentOpt_eq, gtZero, val,
      hi, hX, hT] at h
    have hm : 0 < feeFromPercent fp * feeFromPercent bp := mul_pos hf hb
    have hD : 0 < X * 1000000 + i * (feeFromPercent fp * feeFromPercent bp) := by
      have := mul_pos hi hm
      nlinarith
    have ho : 0 < o := by
      rw [← h]
      exact div_pos (mul_pos (mul_pos hi hT) hm) hD
    have hToEq : T - o = T * (X * 1000000) /
        (X * 1000000 + i * (feeFromPercent fp * feeFromPercent bp)) := by
      rw [← h]
      field_simp
      ring
    have hTo : 0 < T - o := by
      rw [hToEq]
      exact div_pos (mul_pos hT (by nlinarith)) hD
    have hp := pow10_pos d
    have hR : X * o * 1000000 * pow10 d /
        ((T - o) * (feeFromPercent fp * feeFromPercent bp * pow10 d)) = i := by
      rw [hToEq, ← h]
      field_simp
      ring
    have hEff : effectivePool false (some X) = some X := rfl
    simp only [xtzToTokenXtzInput, hEff, val, Option.getD_some]
    rw [if_pos]
    · rw [hR, if_pos hi]
    · simp [gtZero, geqZero, ho, hX, hT, hd]
  · intro hb1000 o h
    simp [tokenToXtzXtzOutput, effectivePool, gtZero, val, ht, hX, hT, hb1000] at h
    have h1 : 0 < feeFromPercent fp * 1000 := mul_pos hf (by norm_num)
    have hD : 0 < T * 1000000 + tIn * (feeFromPercent fp * 1000) := by
      nlinarith [mul_pos ht h1, mul_pos hT (show (0 : ℚ) < 1000000 by norm_num)]
    have ho : 0 < o := by
      rw [← h]
      exact div_pos (mul_pos (mul_pos ht hX) h1) hD
    have hXoEq : X - o = X * (T * 1000000) /
        (T * 1000000 + tIn * (feeFromPercent fp * 1000)) := by
      rw [← h]
      field_simp
      ring
    have hXo : 0 < X - o := by
      rw [hXoEq]
      exact div_pos (mul_pos hX (by nlinarith)) hD
    have hp := pow10_pos d
    have hR : T * o * 1000000 * pow10 d /
        ((X * (feeFromPercent fp * 1000) - o * (feeFromPercent fp * 1000)) * pow10 d) =
        tIn := by
      have hfac : X * (feeFromPercent fp * 1000) - o * (feeFromPercent fp * 1000) =
          (X - o) * (feeFromPercent fp * 1000) := by ring
      rw [hfac, hXoEq, ← h]
      field_simp
      ring
    have hEff : effectivePool false (some X) = some X := rfl
    simp only [tokenToXtzTokenInput, hEff, val, Option.getD_some, hb1000]
    rw [if_pos]
    · rw [hR, if_pos ht]
    · simp [gtZero, geqZero, ho, hX, hT, hd]

/-- Witness for claim C3 (amended): with unit pools and zero fee/burn the
forward quote of `1` XTZ is `1 / 2` token, and the inverse quote of
`1 / 2` token is exactly `1` XTZ. -/
theorem roundtrip_bound_amended_witness :
    xtzToTokenXtzInput false (some (1 / 2)) (some 1) (some 1) (some 0) 0 0 = some 1 :=
  (roundtrip_bound_amended 1 1 1 1 0 0 0 (by norm_num) (by norm_num) (by norm_num)
    (by norm_num) (by norm_num) (by norm_num [feeFromPercent])
    (by norm_num [feeFromPercent])).1 (1 / 2)
    (by norm_num [xtzToTokenTokenOutput, effectivePool, feeFromPercentOpt, gtZero, val])

/-- Claim C7, counterexample:  The claim states the price impact is always in
`[0, 1)` for positive trades against positive pools.  `xtzToTokenPriceImpact`
computes its "mid price" as the product `tokenPool * xtzPool` instead of a
ratio, so for the positive fractional inputs
`xtzIn = 1/2, xtzPool = 1/2, tokenPool = 1` (BigNumber accepts arbitrary
decimals) it returns `-1`, outside `[0, 1)`. -/
theorem priceImpact_negative_on_fractional :
    xtzToTokenPriceImpact false (some (1 / 2)) (some (1 / 2)) (some 1) 0 = some (-1) ∧
      (-1 : ℚ) < 0 := by
  constructor
  · norm_num [xtzToTokenPriceImpact, effectivePool, feeFromPercent, gtZero, val]
  · norm_num

/-- Claim C7, amended:  For trades and pools of at least `1` (the integral
mutez/token domain) and burn percentage in `[0, 100]`, both price-impact
functions return a value in `[0, 1)`, under either subsidy flag; and when
the burn multiplier is zero (net proceeds non-positive) both return
exactly `0`. -/
theorem price_impact_bounds_amended (lb : Bool) (i tIn X T bp : ℚ)
    (hi : 1 ≤ i) (hX : 1 ≤ X) (hT : 0 < T) (ht : 0 < tIn)
    (hb0 : 0 ≤ bp) (hb1 : bp ≤ 100) :
    (∀ r, xtzToTokenPriceImpact lb (some i) (some X) (some T) bp = some r →
      0 ≤ r ∧ r < 1) ∧
    (∀ r, tokenToXtzPriceImpact lb (some tIn) (some X) (some T) bp = some r →
      0 ≤ r ∧ r < 1) ∧
    (feeFromPercent bp ≤ 0 →
      xtzToTokenPriceImpact lb (some i) (some X) (some T) bp = some 0 ∧
      tokenToXtzPriceImpact lb (some tIn) (some X) (some T) bp = some 0) := by
  have hi0 : 0 < i := lt_of_lt_of_le one_pos hi
  have hEff : effectivePool lb (some X) = some (if lb = true then X + 2500000 else X) := by
    cases lb <;> rfl
  set Y := if lb = true then X + 2500000 else X with hY
  have hY1 : 1 ≤ Y := by
    cases lb <;> simp [hY] <;> linarith
  have hY0 : 0 < Y := lt_of_lt_of_le one_pos hY1
  have hble : feeFromPercent bp ≤ 1000 := feeFromPercent_le_1000 hb0
  have hbge : 0 ≤ feeFromPercent bp := feeFromPercent_nonneg hb1
  refine ⟨?_, ?_, ?_⟩
  · intro r h
    simp [xtzToTokenPriceImpact, hEff, gtZero, val, hi0, hY0, hT] at h
    set b := feeFromPercent bp with hb
    set nb := i * b / 1000 with hnb
    have hnb0 : 0 ≤ nb := div_nonneg (mul_nonneg hi0.le hbge) (by norm_num)
    have hden : 0 < nb + Y := by linarith
    split at h
    · rw [← Option.some.inj h]
      norm_num
    · rename_i hpos
      push_neg at hpos
      rw [← Option.some.inj h]
      have heQ : 0 < T * Y * i := mul_pos (mul_pos hT hY0) hi0
      have htBT : nb * T / (nb + Y) < T := by
        rw [div_lt_iff₀ hden]
        nlinarith [mul_pos hT hY0]
      have hYi : (1 : ℚ) ≤ Y * i := by nlinarith
      have hTeQ : T ≤ T * Y * i := by nlinarith [mul_le_mul_of_nonneg_left hYi hT.le]
      constructor
      · exact div_nonneg (by linarith) heQ.le
      · rw [div_lt_one heQ]
        linarith
  · intro r h
    simp [tokenToXtzPriceImpact, hEff, gtZero, val, ht, hY0, hT] at h
    set b := feeFromPercent bp with hb
    set xb := tIn * Y / (tIn + T) with hxb
    have hden : 0 < tIn + T := by linarith
    have hxb0 : 0 ≤ xb := div_nonneg (mul_nonneg ht.le hY0.le) hden.le
    split at h
    · rw [← Option.some.inj h]
      norm_num
    · rename_i hpos
      push_neg at hpos
      rw [← Option.some.inj h]
      have heQ : 0 < Y / T * tIn := mul_pos (div_pos hY0 hT) ht
      have hstep1 : xb * b / 1000 ≤ xb := by
        rw [div_le_iff₀ (show (0 : ℚ) < 1000 by norm_num)]
        nlinarith
      have hstep2 : xb < Y / T * tIn := by
        have hrw : Y / T * tIn = tIn * Y / T := by ring
        rw [hrw, hxb]
        exact div_lt_div_of_pos_left (mul_pos ht hY0) hT (by linarith)
      constructor
      · exact div_nonneg (by linarith) heQ.le
      · rw [div_lt_one heQ]
        linarith
  · intro hb_le
    have hb_eq : feeFromPercent bp = 0 := le_antisymm hb_le hbge
    constructor
    · simp [xtzToTokenPriceImpact, hEff, gtZero, val, hi0, hY0, hT, hb_eq]
    · simp [tokenToXtzPriceImpact, hEff, gtZero, val, ht, hY0, hT, hb_eq]

/-- Witness for claim C7 (amended): at unit pools and zero burn the xtz→token
price impact `1 / 2` lies in `[0, 1)`. -/
theorem price_impact_bounds_amended_witness :
    0 ≤ (1 / 2 : ℚ) ∧ (1 / 2 : ℚ) < 1 :=
  (price_impact_bounds_amended false 1 1 1 1 0 (by norm_num) (by norm_num) (by norm_num)
    (by norm_num) (by norm_num) (by norm_num)).1 (1 / 2)
    (by norm_num [xtzToTokenPriceImpact, effectivePool, feeFromPercent, gtZero, val])


/-- Claim C9, counterexample:  The claim states that every public function
returns the `null` sentinel when a numeric-like argument fails to coerce.
`xtzToTokenExchangeRateForDisplay` never validates its `decimals` argument:
with `decimals` failing to coerce (`NaN`) and otherwise valid inputs, it
returns a `NaN` BigNumber result (`some none`), not the `null` sentinel. -/
theorem displayRate_nan_not_null :
    xtzToTokenExchangeRateForDisplay false (some 1) (some 1) (some 1) none 0 0 =
      some none ∧ some (none : Option ℚ) ≠ none := by
  constructor
  · norm_num [xtzToTokenExchangeRateForDisplay, xtzToTokenTokenOutput, effectivePool,
      feeFromPercentOpt, gtZero, val]
  · simp

/-- Claim C9, amended:  With the subsidy flag off, every public function
returns the `null` sentinel — and never throws — when any argument checked
by its guards is non-positive where positivity is required, negative where
non-negativity is required, or fails numeric coercion (`NaN`); the
exceptions are the two `...ForDisplay` functions, whose unvalidated
`decimals` argument is excluded (a `NaN` there flows into the result
instead, see the counterexample). -/
theorem invalid_input_returns_none :
    (∀ (a b c : Option ℚ) (fp bp : ℚ),
      gtZero a = false ∨ gtZero b = false ∨ gtZero c = false →
      xtzToTokenTokenOutput false a b c fp bp = none) ∧
    (∀ (a b c d : Option ℚ) (fp bp : ℚ),
      gtZero a = false ∨ gtZero b = false ∨ gtZero c = false ∨ geqZero d = false →
      xtzToTokenXtzInput false a b c d fp bp = none) ∧
    (∀ (a b c : Option ℚ) (fp bp : ℚ),
      gtZero a = false ∨ gtZero b = false ∨ gtZero c = false →
      xtzToTokenExchangeRate false a b c fp bp = none) ∧
    (∀ (a b c d : Option ℚ) (fp bp : ℚ),
      gtZero a = false ∨ gtZero b = false ∨ gtZero c = false →
      xtzToTokenExchangeRateForDisplay false a b c d fp bp = none) ∧
    (∀ (a b d : Option ℚ),
      gtZero a = false ∨ gtZero b = false ∨ geqZero d = false →
      xtzToTokenMarketRate a b d = none) ∧
    (∀ (a b c : Option ℚ) (bp : ℚ),
      gtZero a = false ∨ gtZero b = false ∨ gtZero c = false →
      xtzToTokenPriceImpact false a b c bp = none) ∧
    (∀ (a : Option ℚ) (s : ℚ), gtZero a = false →
      xtzToTokenMinimumTokenOutput a s = none) ∧
    (∀ a : Option ℚ, gtZero a = false → totalLiquidityProviderFee a = none) ∧
    (∀ (a b c : Option ℚ),
      gtZero a = false ∨ gtZero b = false ∨ gtZero c = false →
      liquidityProviderFee a b c = none) ∧
    (∀ (a b c : Option ℚ) (fp bp : ℚ),
      gtZero a = false ∨ gtZero b = false ∨ gtZero c = false →
      tokenToXtzXtzOutput false a b c fp bp = none) ∧
    (∀ (a b c d : Option ℚ) (fp bp : ℚ),
      gtZero a = false ∨ gtZero b = false ∨ gtZero c = false ∨ geqZero d = false →
      tokenToXtzTokenInput false a b c d fp bp = none) ∧
    (∀ (a b c : Option ℚ) (fp bp : ℚ),
      gtZero a = false ∨ gtZero b = false ∨ gtZero c = false →
      tokenToXtzExchangeRate false a b c fp bp = none) ∧
    (∀ (a b c d : Option ℚ) (fp bp : ℚ),
      gtZero a = false ∨ gtZero b = false ∨ gtZero c = false →
      tokenToXtzExchangeRateForDisplay false a b c d fp bp = none) ∧
    (∀ (a b d : Option ℚ),
      gtZero a = false ∨ gtZero b = false ∨ geqZero d = false →
      tokenToXtzMarketRate a b d = none) ∧
    (∀ (a b c : Option ℚ) (bp : ℚ),
      gtZero a = false ∨ gtZero b = false ∨ gtZero c = false →
      tokenToXtzPriceImpact false a b c bp = none) ∧
    (∀ (a : Option ℚ) (s : ℚ), gtZero a = false →
      tokenToXtzMinimumXtzOutput a s = none) ∧
    (∀ (a b L : Option ℚ),
      gtZero a = false ∨ gtZero b = false ∨ L = none →
      addLiquidityLiquidityCreated false a b L = none) ∧
    (∀ (a b c : Option ℚ),
      gtZero a = false ∨ gtZero b = false ∨ gtZero c = false →
      addLiquidityTokenIn false a b c = none) ∧
    (∀ (a b c : Option ℚ),
      gtZero a = false ∨ gtZero b = false ∨ gtZero c = false →
      addLiquidityXtzIn false a b c = none) ∧
    (∀ (a b c : Option ℚ),
      gtZero a = false ∨ gtZero b = false ∨ gtZero c = false →
      removeLiquidityTokenOut a b c = none) ∧
    (∀ (a b c : Option ℚ),
      gtZero a = false ∨ gtZero b = false ∨ gtZero c = false →
      removeLiquidityXtzOut false a b c = none) := by
  refine ⟨?_, ?_, ?_, ?_, ?_, ?_, ?_, ?_, ?_, ?_, ?_, ?_, ?_, ?_, ?_, ?_, ?_, ?_, ?_, ?_, ?_⟩
  · rintro a b c fp bp (h | h | h) <;>
      simp [xtzToTokenTokenOutput, effectivePool, h]
  · rintro a b c d fp bp (h | h | h | h) <;>
      simp [xtzToTokenXtzInput, effectivePool, h]
  · rintro a b c fp bp (h | h | h) <;>
      simp [xtzToTokenExchangeRate, h]
  · rintro a b c d fp bp (h | h | h) <;>
      simp [xtzToTokenExchangeRateForDisplay, h]
  · rintro a b d (h | h | h) <;>
      simp [xtzToTokenMarketRate, h]
  · rintro a b c bp (h | h | h) <;>
      simp [xtzToTokenPriceImpact, effectivePool, h]
  · intro a s h
    simp [xtzToTokenMinimumTokenOutput, h]
  · intro a h
    simp [totalLiquidityProviderFee, h]
  · rintro a b c (h | h | h) <;>
      simp [liquidityProviderFee, h]
  · rintro a b c fp bp (h | h | h) <;>
      simp [tokenToXtzXtzOutput, effectivePool, h]
  · rintro a b c d fp bp (h | h | h | h) <;>
      simp [tokenToXtzTokenInput, effectivePool, h]
  · rintro a b c fp bp (h | h | h) <;>
      simp [tokenToXtzExchangeRate, h]
  · rintro a b c d fp bp (h | h | h) <;>
      simp [tokenToXtzExchangeRateForDisplay, h]
  · rintro a b d (h | h | h) <;>
      simp [tokenToXtzMarketRate, h]
  · rintro a b c bp (h | h | h) <;>
      simp [tokenToXtzPriceImpact, effectivePool, h]
  · intro a s h
    simp [tokenToXtzMinimumXtzOutput, h]
  · rintro a b L (h | h | h)
    · simp [addLiquidityLiquidityCreated, effectivePool, h]
    · simp [addLiquidityLiquidityCreated, effectivePool, h]
    · subst h
      simp [addLiquidityLiquidityCreated, effectivePool, eqZero, gtZero]
  · rintro a b c (h | h | h) <;>
      simp [addLiquidityTokenIn, effectivePool, h]
  · rintro a b c (h | h | h) <;>
      simp [addLiquidityXtzIn, effectivePool, h]
  · rintro a b c (h | h | h) <;>
      simp [removeLiquidityTokenOut, h]
  · rintro a b c (h | h | h) <;>
      simp [removeLiquidityXtzOut, effectivePool, h]
/-- Witness for claim C9 (amended): a non-coercing `xtzIn` makes
`xtzToTokenTokenOutput` fail with the sentinel. -/
theorem invalid_input_returns_none_witness :
    xtzToTokenTokenOutput false none (some 1) (some 1) 0 0 = none :=
  invalid_input_returns_none.1 none (some 1) (some 1) 0 0 (Or.inl rfl)

end KukaiDex
